import Mathlib

/-!
Verification of the gallery state machine of the 3d-object-generation
application.  The definitions below are a shallow embedding of the Python
source (src/components/image_card.py, src/components/image_gallery.py,
src/components/blender_export.py, src/app.py): gallery objects are records
whose fields mirror the dictionary keys used by the source, handlers are
pure functions threading the gallery list, and the external image / 3D
generation services are modelled by their result values, passed in as
parameters.
-/

/-- Python `s.strip()`: drop leading and trailing whitespace. -/
def pyStrip (s : String) : String :=
  ⟨(((s.data.dropWhile Char.isWhitespace).reverse).dropWhile Char.isWhitespace).reverse⟩

/-- Python `s.replace(' ', '_')`: single-character replacement. -/
def pyReplaceSpace (s : String) : String :=
  ⟨s.data.map fun c => if c = ' ' then '_' else c⟩

/-- Python truthiness of an optional string valued dictionary entry:
`none` models a missing key, `some ""` an empty string — both falsy. -/
def strTruthy : Option String → Bool
  | none => false
  | some s => !s.isEmpty

/-- One gallery object.  Each field mirrors one dictionary key of the
Python object record; boolean flags model `obj.get(key, False)` access,
`Option` fields model keys that may be absent (deleted). -/
structure SceneObject where
  title : String := ""
  description : String := ""
  path : Option String := none
  seed : Option Nat := none
  image_generating : Bool := false
  image_generation_failed : Bool := false
  image_generation_error : Option String := none
  prompt_content_filtered : Bool := false
  prompt_content_filtered_timestamp : Option String := none
  glb_path : Option String := none
  three_d_generated : Bool := false
  three_d_timestamp : Option String := none
  three_d_generating : Bool := false
  content_filtered : Bool := false
  content_filtered_timestamp : Option String := none
  batch_processing : Bool := false
  three_d_generation_global : Bool := false
  deriving Repr, DecidableEq

/-- Result triple `(success, message, path)` returned by the external
image / 3D generation services. -/
structure GenOutcome where
  success : Bool
  message : String
  path : Option String
  deriving Repr, DecidableEq

/-- A 3D-service call inside the batch loop either returns a result or
raises an exception. -/
inductive CallResult where
  | ok (r : GenOutcome)
  | raises
  deriving Repr, DecidableEq

/-- Derived per-object 2D image state of the specification's data model. -/
inductive ImageState where
  | Empty
  | Generating
  | Ready (path : String)
  | Failed (msg : String)
  | PromptFiltered
  deriving Repr, DecidableEq

/-- Derived per-object 3D model state of the specification's data model. -/
inductive ModelState where
  | Empty
  | Generating
  | Ready (path : String)
  | Failed
  | ContentFiltered
  deriving Repr, DecidableEq

/-- Projection of the raw flags to the specification's `image_state`. -/
def imageState (o : SceneObject) : ImageState :=
  if o.image_generating then .Generating
  else if o.image_generation_failed then .Failed (o.image_generation_error.getD "")
  else if o.prompt_content_filtered then .PromptFiltered
  else if strTruthy o.path then .Ready (o.path.getD "")
  else .Empty

/-- Projection of the raw flags to the specification's `model_state`. -/
def modelState (o : SceneObject) : ModelState :=
  if strTruthy o.glb_path then .Ready (o.glb_path.getD "")
  else if o.content_filtered then .ContentFiltered
  else if o.three_d_generating then .Generating
  else .Empty

/-- `updated_data[idx] = f(updated_data[idx])` on a list, identity when the
index is out of range. -/
def listModify (f : α → α) : Nat → List α → List α
  | _, [] => []
  | 0, a :: as => f a :: as
  | n + 1, a :: as => a :: listModify f n as

theorem listModify_length (f : α → α) (i : Nat) (l : List α) :
    (listModify f i l).length = l.length := by
  induction l generalizing i with
  | nil => cases i <;> rfl
  | cons a as ih => cases i with
    | zero => rfl
    | succ n => simp [listModify, ih]

theorem listModify_get?_self (f : α → α) (i : Nat) (l : List α) :
    (listModify f i l).get? i = (l.get? i).map f := by
  induction l generalizing i with
  | nil => cases i <;> rfl
  | cons a as ih => cases i with
    | zero => rfl
    | succ n => simpa [listModify] using ih n

theorem listModify_get?_ne (f : α → α) (i j : Nat) (l : List α) (h : i ≠ j) :
    (listModify f j l).get? i = l.get? i := by
  induction l generalizing i j with
  | nil => cases j <;> rfl
  | cons a as ih =>
    cases j with
    | zero => cases i with
      | zero => exact absurd rfl h
      | succ m => rfl
    | succ n => cases i with
      | zero => rfl
      | succ m => simpa [listModify] using ih m n (fun hc => h (by simp [hc]))

/-! ## Single-object operations (src/components/image_card.py, src/app.py) -/

/-- `invalidate_3d_model` (image_card.py lines 10–40) restricted to the
object it rewrites: delete `glb_path`, `3d_generated`, `3d_timestamp`,
`content_filtered`, `content_filtered_timestamp`, set
`3d_generating = False` and delete `batch_processing`. -/
def invalidate_3d_model_obj (o : SceneObject) : SceneObject :=
  { o with glb_path := none, three_d_generated := false, three_d_timestamp := none,
           content_filtered := false, content_filtered_timestamp := none,
           three_d_generating := false, batch_processing := false }

/-- `invalidate_3d_model(gallery_data, card_idx, ...)` of image_card.py. -/
def invalidate_3d_model (gallery_data : List SceneObject) (card_idx : Nat) :
    List SceneObject :=
  listModify invalidate_3d_model_obj card_idx gallery_data

/-- `clear_image_generation_failure_flags` of src/utils.py. -/
def clear_image_generation_failure_flags (o : SceneObject) : SceneObject :=
  { o with image_generation_failed := false, image_generation_error := none,
           prompt_content_filtered := false, prompt_content_filtered_timestamp := none }

/-- `refresh_image(card_idx, gallery_data)` of image_card.py (lines
198–282).  The external image-generation result, the freshly drawn seed
and the timestamp string are parameters. -/
def refresh_image (result : GenOutcome) (new_seed : Nat) (now : String)
    (card_idx : Nat) (gallery_data : List SceneObject) : List SceneObject :=
  match gallery_data.get? card_idx with
  | none => gallery_data
  | some obj =>
    if obj.title.isEmpty || obj.description.isEmpty then gallery_data
    else
      let d1 :=
        if result.success && strTruthy result.path then
          listModify (fun o =>
            clear_image_generation_failure_flags
              { o with path := result.path, seed := some new_seed })
            card_idx gallery_data
        else if result.message == "PROMPT_CONTENT_FILTERED" then
          listModify (fun o =>
            { o with path := some "static/images/content_filtered.svg",
                     prompt_content_filtered := true,
                     prompt_content_filtered_timestamp := some now })
            card_idx gallery_data
        else
          listModify (fun o =>
            { o with image_generation_failed := true,
                     image_generation_error := some result.message })
            card_idx gallery_data
      let d2 := listModify (fun o => { o with image_generating := false }) card_idx d1
      invalidate_3d_model d2 card_idx

/-- `update_object_description(edit_idx, new_description, gallery_data)` of
src/app.py (lines 773–824).  Mirrors the source's control flow exactly: the
3D-model invalidation and the batch-flag deletion sit outside the
success test, so they run for every non-blank edit. -/
def update_object_description (result : GenOutcome) (new_seed : Nat)
    (edit_idx : Nat) (new_description : String)
    (gallery_data : List SceneObject) : List SceneObject :=
  if edit_idx < gallery_data.length then
    if new_description.isEmpty || (pyStrip new_description).isEmpty then gallery_data
    else
      let d1 := listModify (fun o => { o with description := pyStrip new_description })
        edit_idx gallery_data
      let d2 :=
        if result.success && strTruthy result.path then
          listModify (fun o => { o with path := result.path, seed := some new_seed })
            edit_idx d1
        else d1
      invalidate_3d_model d2 edit_idx
  else gallery_data

/-- `generate_3d_model(card_idx, gallery_data)` of image_card.py (lines
288–356), with the external 3D-generation result and timestamp as
parameters. -/
def generate_3d_model (result : GenOutcome) (now : String)
    (card_idx : Nat) (gallery_data : List SceneObject) : List SceneObject :=
  match gallery_data.get? card_idx with
  | none => gallery_data
  | some obj =>
    if obj.title.isEmpty || !strTruthy obj.path then gallery_data
    else if strTruthy obj.glb_path then gallery_data
    else if result.success && strTruthy result.path then
      listModify (fun o =>
        { o with glb_path := result.path, three_d_generated := true,
                 three_d_timestamp := some now, three_d_generating := false })
        card_idx gallery_data
    else if result.message == "CONTENT_FILTERED" then
      listModify (fun o =>
        { o with three_d_generating := false, content_filtered := true,
                 content_filtered_timestamp := some now })
        card_idx gallery_data
    else
      listModify (fun o => { o with three_d_generating := false }) card_idx gallery_data

/-! ## Batch convert-all (image_card.py, `create_convert_all_3d_handler`) -/

/-- First-pass eligibility test of `perform_batch_3d_conversion` (line 78):
`not obj.get("glb_path") and not obj.get("3d_generating", False) and not
obj.get("content_filtered", False)`. -/
def batchEligible (o : SceneObject) : Bool :=
  !strTruthy o.glb_path && !o.three_d_generating && !o.content_filtered

/-- First pass (lines 77–81): mark every eligible object as
`3d_generating = True`.  Marking an object only writes its own flag, so
the per-index loop of the source equals a pointwise map. -/
def batchMarkPass (l : List SceneObject) : List SceneObject :=
  l.map fun o => if batchEligible o then { o with three_d_generating := true } else o

/-- Write-back of one 3D-generation result inside the batch loop
(lines 112–129); identical to the single-object write-back. -/
def batchWriteBack (r : GenOutcome) (now : String) (idx : Nat)
    (data : List SceneObject) : List SceneObject :=
  if r.success && strTruthy r.path then
    listModify (fun o =>
      { o with glb_path := r.path, three_d_generated := true,
               three_d_timestamp := some now, three_d_generating := false })
      idx data
  else if r.message == "CONTENT_FILTERED" then
    listModify (fun o =>
      { o with three_d_generating := false, content_filtered := true,
               content_filtered_timestamp := some now })
      idx data
  else
    listModify (fun o => { o with three_d_generating := false }) idx data

/-- Clearing pass run after the loop, and in the `total_unconverted == 0`
early return (lines 85–91 and 131–136): set `batch_processing = False`
and delete `3d_generation_global` on every object. -/
def batchClear (l : List SceneObject) : List SceneObject :=
  l.map fun o => { o with batch_processing := false, three_d_generation_global := false }

/-- The `except` handler of `perform_batch_3d_conversion` (lines 141–153):
additionally resets `3d_generating` on every object. -/
def batchExceptClear (l : List SceneObject) : List SceneObject :=
  l.map fun o =>
    { o with three_d_generating := false, batch_processing := false,
             three_d_generation_global := false }

/-- Second pass of `perform_batch_3d_conversion` (lines 96–129): walk the
index list; for every object currently flagged `3d_generating` issue the
3D-service call and write the result back.  Returns the final list, the
trace of indices for which a call was issued, and whether a call raised
(which in the source aborts the loop and transfers to the `except`
handler with the state mutated so far). -/
def batchLoop (results : Nat → CallResult) (now : String) :
    List Nat → List SceneObject → List SceneObject × List Nat × Bool
  | [], data => (data, [], false)
  | idx :: rest, data =>
    match data.get? idx with
    | none => batchLoop results now rest data
    | some o =>
      if o.three_d_generating then
        match results idx with
        | .raises => (data, [idx], true)
        | .ok r =>
          let out := batchLoop results now rest (batchWriteBack r now idx data)
          (out.1, idx :: out.2.1, out.2.2)
      else batchLoop results now rest data

/-- `perform_batch_3d_conversion(gallery_data)` (lines 63–153): empty
store short-circuit, mark pass, `total_unconverted == 0` early return,
sequential conversion loop, final clearing pass, `except` handler.
Returns (final store, trace of call indices, aborted-by-exception flag). -/
def perform_batch_3d_conversion (results : Nat → CallResult) (now : String)
    (gallery_data : List SceneObject) : List SceneObject × List Nat × Bool :=
  if gallery_data.isEmpty then (gallery_data, [], false)
  else
    let marked := batchMarkPass gallery_data
    if gallery_data.countP (fun o => batchEligible o) = 0 then
      (batchClear marked, [], false)
    else
      let out := batchLoop results now (List.range marked.length) marked
      if out.2.2 then (batchExceptClear out.1, out.2.1, true)
      else (batchClear out.1, out.2.1, false)

/-! ## Status projection (src/components/image_gallery.py, `shift_card_ui`) -/

/-- Per-card button view produced by `shift_card_ui` (lines 109–162). -/
structure CardButtons where
  refresh_interactive : Bool
  edit_interactive : Bool
  delete_interactive : Bool
  to3d_label : String
  to3d_interactive : Bool
  deriving Repr, DecidableEq

/-- The per-object button projection of `shift_card_ui`. -/
def shift_card_ui_buttons (o : SceneObject) : CardButtons :=
  let is_image_generating := o.image_generating
  let is_3d_generating := o.three_d_generating
  let is_batch_processing := o.batch_processing
  let is_processing := is_3d_generating || is_batch_processing || is_image_generating
  let other := !is_processing
  if strTruthy o.glb_path then
    ⟨other, other, other, "✓ 3D", false⟩
  else if o.content_filtered then
    ⟨other, other, other, "🚫 3D", false⟩
  else if is_3d_generating then
    ⟨other, other, other, "⏳ 3D", false⟩
  else if is_batch_processing then
    ⟨other, other, other, "⏳ 3D", false⟩
  else if is_image_generating then
    ⟨other, other, other, "→ 3D", false⟩
  else
    ⟨other, other, other, "→ 3D", true⟩

/-- The gallery-level convert-all enablement computed at the end of
`shift_card_ui` (lines 178–209). -/
def enable_convert_all (gallery_data : List SceneObject) : Bool :=
  let has_unconverted := gallery_data.any fun o =>
    !strTruthy o.glb_path && !o.three_d_generating && !o.content_filtered
  let is_batch := gallery_data.any fun o => o.batch_processing
  let any_image := gallery_data.any fun o => o.image_generating
  let any_3d := gallery_data.any fun o => o.three_d_generating
  has_unconverted && !is_batch && !any_image && !any_3d

/-! ## Export (src/components/blender_export.py, `export_3d_assets_to_folder`) -/

/-- `export_3d_assets_to_folder(gallery_data, folder_name)` (lines
216–258).  The file system is modelled by the predicate `fileExists`;
the function returns the list of target file names written, in order,
and whether the destination directory was created. -/
def export_3d_assets_to_folder (fileExists : String → Bool)
    (gallery_data : List SceneObject) (folder_name : String) :
    List String × Bool :=
  if gallery_data.isEmpty then ([], false)
  else if folder_name.isEmpty || (pyStrip folder_name).isEmpty then ([], false)
  else
    let exportable := gallery_data.filter fun o =>
      strTruthy o.glb_path && fileExists (o.glb_path.getD "")
    if exportable.isEmpty then ([], false)
    else
      let exported := (exportable.filter fun o => fileExists (o.glb_path.getD "")).map
        fun o => pyReplaceSpace o.title ++ ".glb"
      (exported, true)

/-- The batch-eligibility predicate as worded by the specification
(§4.3 Stage B): `image_state = Ready` and `model_state = Empty`.  Stated
over the derived states so it can be compared with the source's
`batchEligible`. -/
def specBatchEligible (o : SceneObject) : Bool :=
  (match imageState o with
   | ImageState.Ready _ => true
   | _ => false) &&
  decide (modelState o = ModelState.Empty)

/-- `model_state = Ready` as a boolean test on the derived state. -/
def isModelReady (o : SceneObject) : Bool :=
  match modelState o with
  | ModelState.Ready _ => true
  | _ => false

/-- The indices the source's batch loop is eligible to convert on a store
where nothing is already generating: objects passing `batchEligible`, in
index order. -/
def codeEligibleIdx (data : List SceneObject) : List Nat :=
  (List.range data.length).filter fun i => ((data.get? i).map batchEligible).getD false

/-- The `3d_generating` flag of the object at index `i`, `false` when out
of range — the test driving the batch conversion loop. -/
def genAt (data : List SceneObject) (i : Nat) : Bool :=
  ((data.get? i).map fun o => o.three_d_generating).getD false

/-! ## Theorems -/

theorem modelState_invalidate_obj (o : SceneObject) :
    modelState (invalidate_3d_model_obj o) = ModelState.Empty := rfl

theorem invalidate_3d_model_modelState (data : List SceneObject) (idx : Nat)
    (h : idx < data.length) :
    ∃ o, (invalidate_3d_model data idx).get? idx = some o ∧
      modelState o = ModelState.Empty := by
  refine ⟨invalidate_3d_model_obj (data.get ⟨idx, h⟩), ?_, rfl⟩
  rw [invalidate_3d_model, listModify_get?_self, List.get?_eq_get h]
  rfl

theorem refresh_image_modelState (res : GenOutcome) (seed : Nat) (now : String)
    (idx : Nat) (data : List SceneObject) (obj : SceneObject)
    (hobj : data.get? idx = some obj)
    (ht : obj.title.isEmpty = false) (hd : obj.description.isEmpty = false) :
    ∃ o, (refresh_image res seed now idx data).get? idx = some o ∧
      modelState o = ModelState.Empty := by
  have hlt : idx < data.length := by
    have := List.get?_eq_some.mp hobj
    exact this.choose
  simp only [refresh_image, hobj, ht, hd, Bool.or_self, if_false]
  apply invalidate_3d_model_modelState
  rw [listModify_length]
  split
  · rwa [listModify_length]
  split
  · rwa [listModify_length]
  · rwa [listModify_length]

theorem update_object_description_modelState (res : GenOutcome) (seed : Nat)
    (idx : Nat) (txt : String) (data : List SceneObject)
    (hidx : idx < data.length)
    (htxt : (txt.isEmpty || (pyStrip txt).isEmpty) = false) :
    ∃ o, (update_object_description res seed idx txt data).get? idx = some o ∧
      modelState o = ModelState.Empty := by
  simp only [update_object_description, hidx, htxt, if_true, if_false]
  apply invalidate_3d_model_modelState
  split
  · rw [listModify_length, listModify_length]; exact hidx
  · rw [listModify_length]; exact hidx

/-- C1 — cascading invalidation: after a refresh-image or
edit-description operation whose image-generation call returned Success
or ContentFiltered, the affected object's `model_state` is `Empty`,
whatever it was before. -/
theorem C1_cascading_invalidation (res : GenOutcome) (seed : Nat) (now : String)
    (idx : Nat) (data : List SceneObject) (hidx : idx < data.length)
    (_hres : (res.success = true ∧ strTruthy res.path = true) ∨
            res.message = "PROMPT_CONTENT_FILTERED") :
    (∀ obj, data.get? idx = some obj →
      obj.title.isEmpty = false → obj.description.isEmpty = false →
      ∃ o, (refresh_image res seed now idx data).get? idx = some o ∧
        modelState o = ModelState.Empty) ∧
    (∀ txt : String, (txt.isEmpty || (pyStrip txt).isEmpty) = false →
      ∃ o, (update_object_description res seed idx txt data).get? idx = some o ∧
        modelState o = ModelState.Empty) := by
  constructor
  · intro obj hobj ht hd
    exact refresh_image_modelState res seed now idx data obj hobj ht hd
  · intro txt htxt
    exact update_object_description_modelState res seed idx txt data hidx htxt

/-- C1 witness: a store whose single object holds a ready 3D model
loses it on a successful refresh and on a successful description edit. -/
theorem C1_cascading_invalidation_witness :
    (∃ o, (refresh_image ⟨true, "ok", some "n.png"⟩ 7 "t" 0
        [{ title := "a", description := "d", path := some "a.png",
           glb_path := some "m.glb" }]).get? 0 = some o ∧
      modelState o = ModelState.Empty) ∧
    ∃ o, (update_object_description ⟨true, "ok", some "n.png"⟩ 7 0 " foo "
        [{ title := "a", description := "d", path := some "a.png",
           glb_path := some "m.glb" }]).get? 0 = some o ∧
      modelState o = ModelState.Empty := by
  have h := C1_cascading_invalidation ⟨true, "ok", some "n.png"⟩ 7 "t" 0
    [{ title := "a", description := "d", path := some "a.png",
       glb_path := some "m.glb" }] (by decide) (Or.inl ⟨rfl, by decide⟩)
  exact ⟨h.1 _ rfl (by decide) (by decide), h.2 " foo " (by decide)⟩

theorem isModelReady_eq (o : SceneObject) :
    isModelReady o = strTruthy o.glb_path := by
  unfold isModelReady modelState
  cases hg : strTruthy o.glb_path <;> cases hc : o.content_filtered <;>
    cases hgen : o.three_d_generating <;> simp [hg, hc, hgen]

theorem export_filter_twice (fe : String → Bool) (data : List SceneObject) :
    ((data.filter fun o => strTruthy o.glb_path && fe (o.glb_path.getD "")).filter
      fun o => fe (o.glb_path.getD "")) =
    data.filter fun o => strTruthy o.glb_path && fe (o.glb_path.getD "") := by
  induction data with
  | nil => rfl
  | cons a l ih =>
    by_cases h1 : (strTruthy a.glb_path && fe (a.glb_path.getD "")) = true
    · have h2 : fe (a.glb_path.getD "") = true := (Bool.and_eq_true _ _ |>.mp h1).2
      rw [List.filter_cons, if_pos h1, List.filter_cons, if_pos h2, ih]
    · rw [List.filter_cons, if_neg h1, ih]

/-- C7 — export behaviour: a blank or whitespace-only folder name, or a
store with no object whose glb file exists, is a no-op (nothing copied, no
directory created); otherwise exactly the objects with `model_state =
Ready` whose artifact file exists are copied, in store order. -/
theorem C7_export_behaviour (fe : String → Bool) (data : List SceneObject)
    (name : String) :
    ((name.isEmpty || (pyStrip name).isEmpty) = true →
      export_3d_assets_to_folder fe data name = ([], false)) ∧
    ((data.filter fun o => strTruthy o.glb_path && fe (o.glb_path.getD "")) = [] →
      export_3d_assets_to_folder fe data name = ([], false)) ∧
    ((name.isEmpty || (pyStrip name).isEmpty) = false →
      (export_3d_assets_to_folder fe data name).1 =
        (data.filter fun o => isModelReady o && fe (o.glb_path.getD "")).map
          fun o => pyReplaceSpace o.title ++ ".glb") := by
  refine ⟨?_, ?_, ?_⟩
  · intro hb
    unfold export_3d_assets_to_folder
    split
    · rfl
    · simp only [hb, if_true]
  · intro hfe
    unfold export_3d_assets_to_folder
    split
    · rfl
    split
    · rfl
    · simp only [hfe, List.isEmpty_nil, if_true]
  · intro hnb
    have hfun : (fun o => isModelReady o && fe (o.glb_path.getD "")) =
        (fun o : SceneObject => strTruthy o.glb_path && fe (o.glb_path.getD "")) :=
      funext fun o => by rw [isModelReady_eq]
    rw [hfun]
    unfold export_3d_assets_to_folder
    split
    · rename_i hemp
      rw [List.isEmpty_iff.mp hemp]
      rfl
    split
    · rename_i hblank
      exact absurd hblank (by simp [hnb])
    dsimp only
    split
    · rename_i hexp
      rw [List.isEmpty_iff.mp hexp]
      rfl
    · dsimp only
      rw [export_filter_twice]

/-- C7 witness: whitespace-only folder name is a no-op; a store whose only
glb file is missing exports nothing; with an existing file the sanitized
file name is copied. -/
theorem C7_export_behaviour_witness :
    (export_3d_assets_to_folder (fun _ => true)
      [{ title := "a b", description := "d", glb_path := some "m.glb" }] "  " =
      ([], false)) ∧
    (export_3d_assets_to_folder (fun _ => false)
      [{ title := "a b", description := "d", glb_path := some "m.glb" }] "scene" =
      ([], false)) ∧
    (export_3d_assets_to_folder (fun _ => true)
      [{ title := "a b", description := "d", glb_path := some "m.glb" }] "scene").1 =
      ["a_b.glb"] := by
  refine ⟨?_, ?_, ?_⟩
  · exact (C7_export_behaviour (fun _ => true)
      [{ title := "a b", description := "d", glb_path := some "m.glb" }] "  ").1 (by decide)
  · exact (C7_export_behaviour (fun _ => false)
      [{ title := "a b", description := "d", glb_path := some "m.glb" }] "scene").2.1
      (by decide)
  · have h := (C7_export_behaviour (fun _ => true)
      [{ title := "a b", description := "d", glb_path := some "m.glb" }] "scene").2.2
      (by decide)
    rw [h]
    decide

/-- C8 — edit description: blank or whitespace-only text is a no-op
returning the prior store; non-blank text stores the stripped description
and, when image generation succeeds, the new path, the new seed, and an
invalidated (`Empty`) model state. -/
theorem C8_edit_description (res : GenOutcome) (seed : Nat) (idx : Nat)
    (txt : String) (data : List SceneObject) (hidx : idx < data.length) :
    ((txt.isEmpty || (pyStrip txt).isEmpty) = true →
      update_object_description res seed idx txt data = data) ∧
    ((txt.isEmpty || (pyStrip txt).isEmpty) = false →
      res.success = true → strTruthy res.path = true →
      ∃ o, (update_object_description res seed idx txt data).get? idx = some o ∧
        o.description = pyStrip txt ∧ o.path = res.path ∧ o.seed = some seed ∧
        modelState o = ModelState.Empty) := by
  constructor
  · intro hblank
    simp [update_object_description, hidx, hblank]
  · intro htxt hsucc hpath
    have hsome : data.get? idx = some (data.get ⟨idx, hidx⟩) := List.get?_eq_get hidx
    simp only [update_object_description, hidx, htxt, if_true, if_false, hsucc, hpath,
      Bool.and_self, Bool.true_and, Bool.false_eq_true]
    rw [invalidate_3d_model, listModify_get?_self, listModify_get?_self,
      listModify_get?_self, hsome]
    exact ⟨_, rfl, rfl, rfl, rfl, rfl⟩

/-- C8 witness: whitespace-only edit is the identity; the edit " foo " on
an object holding a 3D model stores "foo", the new path and seed, and
empties the model state. -/
theorem C8_edit_description_witness :
    (update_object_description ⟨true, "ok", some "b.png"⟩ 9 0 " "
      [{ title := "a", description := "d", path := some "a.png" }] =
      [{ title := "a", description := "d", path := some "a.png" }]) ∧
    ∃ o, (update_object_description ⟨true, "ok", some "b.png"⟩ 9 0 "foo"
        [{ title := "a", description := "d", path := some "a.png",
           glb_path := some "m.glb" }]).get? 0 = some o ∧
      o.description = pyStrip "foo" ∧ o.path = some "b.png" ∧ o.seed = some 9 ∧
      modelState o = ModelState.Empty := by
  constructor
  · exact (C8_edit_description ⟨true, "ok", some "b.png"⟩ 9 0 " "
      [{ title := "a", description := "d", path := some "a.png" }] (by decide)).1
      (by decide)
  · exact (C8_edit_description ⟨true, "ok", some "b.png"⟩ 9 0 "foo"
      [{ title := "a", description := "d", path := some "a.png",
         glb_path := some "m.glb" }] (by decide)).2 (by decide) rfl (by decide)

/-- C9 — refresh failure frame: when the image generator fails, the object
records the failure flag and message, keeps its image path and seed, and
its model state is invalidated to `Empty` (a stale model is cleared; an
already-empty model stays empty). -/
theorem C9_refresh_failure_frame (res : GenOutcome) (seed : Nat) (now : String)
    (idx : Nat) (data : List SceneObject) (obj : SceneObject)
    (hobj : data.get? idx = some obj)
    (ht : obj.title.isEmpty = false) (hd : obj.description.isEmpty = false)
    (hfail : (res.success && strTruthy res.path) = false)
    (hnotcf : (res.message == "PROMPT_CONTENT_FILTERED") = false) :
    ∃ o, (refresh_image res seed now idx data).get? idx = some o ∧
      o.image_generation_failed = true ∧
      o.image_generation_error = some res.message ∧
      imageState o = ImageState.Failed res.message ∧
      o.path = obj.path ∧ o.seed = obj.seed ∧
      modelState o = ModelState.Empty := by
  simp only [refresh_image, hobj, ht, hd, Bool.or_self, Bool.false_eq_true, if_false,
    hfail, hnotcf]
  rw [invalidate_3d_model, listModify_get?_self, listModify_get?_self,
    listModify_get?_self, hobj]
  exact ⟨_, rfl, rfl, rfl, rfl, rfl, rfl, rfl⟩

/-- C9 witness: a failed refresh on an object with a ready model keeps path
"a.png" and seed 3, records "boom", and empties the model state. -/
theorem C9_refresh_failure_frame_witness :
    ∃ o, (refresh_image ⟨false, "boom", none⟩ 7 "t" 0
        [{ title := "a", description := "d", path := some "a.png", seed := some 3,
           glb_path := some "m.glb" }]).get? 0 = some o ∧
      o.image_generation_failed = true ∧
      o.image_generation_error = some "boom" ∧
      imageState o = ImageState.Failed "boom" ∧
      o.path = some "a.png" ∧ o.seed = some 3 ∧
      modelState o = ModelState.Empty :=
  C9_refresh_failure_frame ⟨false, "boom", none⟩ 7 "t" 0
    [{ title := "a", description := "d", path := some "a.png", seed := some 3,
       glb_path := some "m.glb" }]
    { title := "a", description := "d", path := some "a.png", seed := some 3,
      glb_path := some "m.glb" }
    rfl (by decide) (by decide) (by decide) (by decide)

/-- C10 — generate-3D guard: with an out-of-range index, a missing title
or image path, or an already existing glb path, the single-object 3D
handler returns the store unchanged. -/
theorem C10_generate3d_guard (res : GenOutcome) (now : String) (idx : Nat)
    (data : List SceneObject)
    (h : data.get? idx = none ∨ ∃ obj, data.get? idx = some obj ∧
      (obj.title.isEmpty = true ∨ strTruthy obj.path = false ∨
       strTruthy obj.glb_path = true)) :
    generate_3d_model res now idx data = data := by
  rcases h with hnone | ⟨obj, hobj, hcase⟩
  · simp only [generate_3d_model, hnone]
  · simp only [generate_3d_model, hobj]
    rcases hcase with h1 | h2 | h3
    · simp only [h1, Bool.true_or, if_true]
    · simp only [h2, Bool.not_false, Bool.or_true, if_true]
    · split
      · rfl
      · simp only [h3, if_true]

/-- C10 witness: the guard fires for index 5 on a one-object store, for an
empty title, for a missing image path, and for an existing model. -/
theorem C10_generate3d_guard_witness :
    (generate_3d_model ⟨true, "ok", some "x.glb"⟩ "t" 5
      [{ title := "a", description := "d", path := some "a.png" }] =
      [{ title := "a", description := "d", path := some "a.png" }]) ∧
    (generate_3d_model ⟨true, "ok", some "x.glb"⟩ "t" 0
      [{ title := "", description := "d", path := some "a.png" }] =
      [{ title := "", description := "d", path := some "a.png" }]) ∧
    (generate_3d_model ⟨true, "ok", some "x.glb"⟩ "t" 0
      [{ title := "a", description := "d" }] =
      [{ title := "a", description := "d" }]) ∧
    (generate_3d_model ⟨true, "ok", some "x.glb"⟩ "t" 0
      [{ title := "a", description := "d", path := some "a.png",
         glb_path := some "m.glb" }] =
      [{ title := "a", description := "d", path := some "a.png",
         glb_path := some "m.glb" }]) := by
  refine ⟨?_, ?_, ?_, ?_⟩
  · exact C10_generate3d_guard _ _ _ _ (Or.inl rfl)
  · exact C10_generate3d_guard _ _ _ _ (Or.inr ⟨_, rfl, Or.inl (by decide)⟩)
  · exact C10_generate3d_guard _ _ _ _ (Or.inr ⟨_, rfl, Or.inr (Or.inl (by decide))⟩)
  · exact C10_generate3d_guard _ _ _ _ (Or.inr ⟨_, rfl, Or.inr (Or.inr (by decide))⟩)

theorem mem_batchClear (l : List SceneObject) :
    ∀ o ∈ batchClear l, o.batch_processing = false := by
  intro o ho
  obtain ⟨a, _, rfl⟩ := List.mem_map.mp ho
  rfl

theorem mem_batchExceptClear (l : List SceneObject) :
    ∀ o ∈ batchExceptClear l,
      o.three_d_generating = false ∧ o.batch_processing = false ∧
      o.three_d_generation_global = false := by
  intro o ho
  obtain ⟨a, _, rfl⟩ := List.mem_map.mp ho
  exact ⟨rfl, rfl, rfl⟩

/-- C2 — batch bracket: whatever the per-object outcomes (success,
failure, content-filtered, or an exception aborting the loop), after
Stage B of batch convert-all no object carries `batch_processing = true`. -/
theorem C2_batch_bracket (results : Nat → CallResult) (now : String)
    (data : List SceneObject) :
    ∀ o ∈ (perform_batch_3d_conversion results now data).1,
      o.batch_processing = false := by
  intro o ho
  unfold perform_batch_3d_conversion at ho
  split at ho
  · rename_i hemp
    rw [List.isEmpty_iff.mp hemp] at ho
    exact absurd ho (List.not_mem_nil o)
  · dsimp only at ho
    split at ho
    · exact mem_batchClear _ o ho
    · split at ho
      · exact (mem_batchExceptClear _ o ho).2.1
      · exact mem_batchClear _ o ho

/-- C2 witness: in a run whose first conversion raises, the first object of
the resulting store has `batch_processing = false`. -/
theorem C2_batch_bracket_witness :
    ({ title := "a", description := "d", path := some "a.png" } :
      SceneObject).batch_processing = false := by
  have h := C2_batch_bracket
    (fun i => if i = 0 then .raises else .ok ⟨true, "ok", some "b.glb"⟩) "t"
    [{ title := "a", description := "d", path := some "a.png",
       batch_processing := true },
     { title := "b", description := "d", path := some "b.png",
       batch_processing := true }]
  exact h _ (by decide)

theorem batchWriteBack_get?_ne (r : GenOutcome) (now : String) (idx j : Nat)
    (data : List SceneObject) (h : j ≠ idx) :
    (batchWriteBack r now idx data).get? j = data.get? j := by
  unfold batchWriteBack
  split
  · exact listModify_get?_ne _ _ _ _ h
  split
  · exact listModify_get?_ne _ _ _ _ h
  · exact listModify_get?_ne _ _ _ _ h

theorem batchLoop_not_aborted (results : Nat → CallResult) (now : String)
    (idxs : List Nat) (data : List SceneObject)
    (hnor : ∀ i, results i ≠ CallResult.raises) :
    (batchLoop results now idxs data).2.2 = false := by
  induction idxs generalizing data with
  | nil => rfl
  | cons idx rest ih =>
    simp only [batchLoop]
    cases hget : data.get? idx with
    | none => exact ih data
    | some o =>
      by_cases hgen : o.three_d_generating = true
      · simp only [hgen, if_true]
        cases hres : results idx with
        | raises => exact absurd hres (hnor idx)
        | ok r => exact ih (batchWriteBack r now idx data)
      · simp only [Bool.not_eq_true] at hgen
        simp only [hgen, Bool.false_eq_true, if_false]
        exact ih data

theorem genAt_batchWriteBack_ne (r : GenOutcome) (now : String) (idx j : Nat)
    (data : List SceneObject) (h : j ≠ idx) :
    genAt (batchWriteBack r now idx data) j = genAt data j := by
  unfold genAt
  rw [batchWriteBack_get?_ne r now idx j data h]

theorem batchLoop_trace (results : Nat → CallResult) (now : String)
    (idxs : List Nat) (data : List SceneObject)
    (hnor : ∀ i, results i ≠ CallResult.raises)
    (hpw : idxs.Pairwise (· ≠ ·)) :
    (batchLoop results now idxs data).2.1 = idxs.filter (genAt data) := by
  induction idxs generalizing data with
  | nil => rfl
  | cons idx rest ih =>
    obtain ⟨hne, hpw'⟩ := List.pairwise_cons.mp hpw
    simp only [batchLoop]
    cases hget : data.get? idx with
    | none =>
      have hg : genAt data idx = false := by unfold genAt; rw [hget]; rfl
      rw [List.filter_cons, if_neg (by simp [hg]), ih data hpw']
    | some o =>
      by_cases hgen : o.three_d_generating = true
      · have hg : genAt data idx = true := by unfold genAt; rw [hget]; exact hgen
        cases hres : results idx with
        | raises => exact absurd hres (hnor idx)
        | ok r =>
          simp only [hgen, if_true, hres]
          rw [List.filter_cons, if_pos (by simp [hg])]
          rw [ih (batchWriteBack r now idx data) hpw']
          congr 1
          apply List.filter_congr
          intro j hj
          exact genAt_batchWriteBack_ne r now idx j data (fun hc => hne j hj hc.symm)
      · simp only [Bool.not_eq_true] at hgen
        have hg : genAt data idx = false := by unfold genAt; rw [hget]; exact hgen
        simp only [hgen, Bool.false_eq_true, if_false]
        rw [List.filter_cons, if_neg (by simp [hg]), ih data hpw']

theorem batchLoop_get?_untouched (results : Nat → CallResult) (now : String)
    (idxs : List Nat) (data : List SceneObject) (j : Nat)
    (hj : genAt data j = false) :
    (batchLoop results now idxs data).1.get? j = data.get? j := by
  induction idxs generalizing data with
  | nil => rfl
  | cons idx rest ih =>
    simp only [batchLoop]
    cases hget : data.get? idx with
    | none => exact ih data hj
    | some o =>
      by_cases hgen : o.three_d_generating = true
      · have hne : j ≠ idx := by
          intro hc
          subst hc
          rw [genAt, hget] at hj
          rw [show ((some o).map fun o => o.three_d_generating).getD false =
            o.three_d_generating from rfl, hgen] at hj
          exact Bool.noConfusion hj
        cases hres : results idx with
        | raises => simp only [hgen, if_true]
        | ok r =>
          simp only [hgen, if_true]
          rw [ih (batchWriteBack r now idx data)
            (by rw [genAt_batchWriteBack_ne r now idx j data hne]; exact hj)]
          exact batchWriteBack_get?_ne r now idx j data hne
      · simp only [Bool.not_eq_true] at hgen
        simp only [hgen, Bool.false_eq_true, if_false]
        exact ih data hj

theorem genAt_batchMarkPass (data : List SceneObject) (i : Nat) (obj : SceneObject)
    (hobj : data.get? i = some obj) (hnogobj : obj.three_d_generating = false) :
    genAt (batchMarkPass data) i = batchEligible obj := by
  unfold genAt batchMarkPass
  rw [List.get?_map, hobj]
  show (if batchEligible obj = true then { obj with three_d_generating := true }
        else obj).three_d_generating = batchEligible obj
  by_cases he : batchEligible obj = true
  · rw [if_pos he, he]
  · rw [if_neg he, hnogobj]
    exact (Bool.eq_false_iff.mpr he).symm

/-- C3 counterexample: on a store holding one object already marked
3D-generating and one object whose image is prompt-content-filtered
(neither of which has `image_state = Ready` and, per the claim, neither
of which should be converted), Stage B issues a generation call for both
indices. -/
theorem C3_batch_eligibility_counterexample :
    (perform_batch_3d_conversion (fun _ => CallResult.ok ⟨false, "err", none⟩) "t"
      [{ title := "a", description := "d", path := some "a.png",
         three_d_generating := true },
       { title := "b", description := "d",
         path := some "static/images/content_filtered.svg",
         prompt_content_filtered := true }]).2.1 = [0, 1] ∧
    ([{ title := "a", description := "d", path := some "a.png",
        three_d_generating := true },
      { title := "b", description := "d",
        path := some "static/images/content_filtered.svg",
        prompt_content_filtered := true }] :
      List SceneObject).filter specBatchEligible = [] ∧
    modelState { title := "a", description := "d", path := some "a.png",
                 three_d_generating := true } = ModelState.Generating := by
  refine ⟨by decide, by decide, by decide⟩

/-- C3 (amended) — batch eligibility: on a store where no object is
already 3D-generating and no call raises, Stage B issues calls exactly
for the objects with `model_state = Empty` (no glb path, not
content-filtered) regardless of image readiness, in index order, and
every object with an existing glb path is returned untouched except for
the cleared batch flags. -/
theorem C3_batch_eligibility (results : Nat → CallResult) (now : String)
    (data : List SceneObject)
    (hnog : ∀ o ∈ data, o.three_d_generating = false)
    (hnor : ∀ i, results i ≠ CallResult.raises) :
    (perform_batch_3d_conversion results now data).2.1 = codeEligibleIdx data ∧
    ∀ j obj, data.get? j = some obj → strTruthy obj.glb_path = true →
      (perform_batch_3d_conversion results now data).1.get? j =
        some { obj with batch_processing := false,
                        three_d_generation_global := false } := by
  constructor
  · unfold perform_batch_3d_conversion
    split
    · rename_i hemp
      rw [List.isEmpty_iff.mp hemp]
      rfl
    · dsimp only
      split
      · rename_i hcnt
        have hall := List.countP_eq_zero.mp hcnt
        symm
        unfold codeEligibleIdx
        rw [List.filter_eq_nil]
        intro i hi
        obtain ⟨obj, hobj⟩ : ∃ obj, data.get? i = some obj :=
          ⟨_, List.get?_eq_get (List.mem_range.mp hi)⟩
        rw [hobj]
        simp only [Option.map_some', Option.getD_some]
        exact fun hc => hall obj (List.get?_mem hobj) hc
      · have hnab := batchLoop_not_aborted results now
          (List.range (batchMarkPass data).length) (batchMarkPass data) hnor
        split
        · rename_i h
          rw [hnab] at h
          exact Bool.noConfusion h
        · dsimp only
          rw [batchLoop_trace results now _ _ hnor (List.nodup_range _)]
          unfold codeEligibleIdx
          rw [show (batchMarkPass data).length = data.length from List.length_map _ _]
          apply List.filter_congr
          intro i hi
          obtain ⟨obj, hobj⟩ : ∃ obj, data.get? i = some obj :=
            ⟨_, List.get?_eq_get (List.mem_range.mp hi)⟩
          rw [genAt_batchMarkPass data i obj hobj (hnog obj (List.get?_mem hobj)),
            hobj]
          rfl
  · intro j obj hobj hglb
    have hnogj := hnog obj (List.get?_mem hobj)
    have hnotelig : batchEligible obj = false := by
      unfold batchEligible
      rw [hglb]
      rfl
    have hmget : (batchMarkPass data).get? j = some obj := by
      unfold batchMarkPass
      rw [List.get?_map, hobj]
      simp only [Option.map_some', hnotelig, Bool.false_eq_true, if_false]
    have hgenm : genAt (batchMarkPass data) j = false := by
      unfold genAt
      rw [hmget]
      exact hnogj
    unfold perform_batch_3d_conversion
    split
    · rename_i hemp
      rw [List.isEmpty_iff.mp hemp] at hobj
      exact Option.noConfusion hobj
    · dsimp only
      split
      · show (batchClear (batchMarkPass data)).get? j = _
        unfold batchClear
        rw [List.get?_map, hmget]
        rfl
      · have hnab := batchLoop_not_aborted results now
          (List.range (batchMarkPass data).length) (batchMarkPass data) hnor
        split
        · rename_i h
          rw [hnab] at h
          exact Bool.noConfusion h
        · show (batchClear _).get? j = _
          unfold batchClear
          rw [List.get?_map,
            batchLoop_get?_untouched results now _ _ j hgenm, hmget]
          rfl

/-- C3 witness: with one converted and one unconverted object, the trace
is exactly the eligible index list and the converted object only loses
its batch flags. -/
theorem C3_batch_eligibility_witness :
    (perform_batch_3d_conversion (fun _ => CallResult.ok ⟨true, "ok", some "new.glb"⟩)
      "t"
      [{ title := "a", description := "d", path := some "a.png",
         glb_path := some "a.glb", batch_processing := true },
       { title := "b", description := "d", path := some "b.png",
         batch_processing := true }]).2.1 =
      codeEligibleIdx
        [{ title := "a", description := "d", path := some "a.png",
           glb_path := some "a.glb", batch_processing := true },
         { title := "b", description := "d", path := some "b.png",
           batch_processing := true }] ∧
    (perform_batch_3d_conversion (fun _ => CallResult.ok ⟨true, "ok", some "new.glb"⟩)
      "t"
      [{ title := "a", description := "d", path := some "a.png",
         glb_path := some "a.glb", batch_processing := true },
       { title := "b", description := "d", path := some "b.png",
         batch_processing := true }]).1.get? 0 =
      some { title := "a", description := "d", path := some "a.png",
             glb_path := some "a.glb", batch_processing := false } := by
  have h := C3_batch_eligibility
    (fun _ => CallResult.ok ⟨true, "ok", some "new.glb"⟩) "t"
    [{ title := "a", description := "d", path := some "a.png",
       glb_path := some "a.glb", batch_processing := true },
     { title := "b", description := "d", path := some "b.png",
       batch_processing := true }]
    (by decide) (fun i h => CallResult.noConfusion h)
  exact ⟨h.1, h.2 0 _ rfl (by decide)⟩

/-- C4 counterexample: with two eligible objects, a raise while
converting index 0 prevents any call for the still-eligible index 1 —
the loop does not continue with the next object — and index 1 ends
without a glb path. -/
theorem C4_batch_failure_counterexample :
    (perform_batch_3d_conversion
      (fun i => if i = 0 then CallResult.raises
                else CallResult.ok ⟨true, "ok", some "b.glb"⟩) "t"
      [{ title := "a", description := "d", path := some "a.png" },
       { title := "b", description := "d", path := some "b.png" }]).2.1 = [0] ∧
    batchEligible { title := "b", description := "d", path := some "b.png" } = true ∧
    ∃ o, (perform_batch_3d_conversion
      (fun i => if i = 0 then CallResult.raises
                else CallResult.ok ⟨true, "ok", some "b.glb"⟩) "t"
      [{ title := "a", description := "d", path := some "a.png" },
       { title := "b", description := "d", path := some "b.png" }]).1.get? 1 =
        some o ∧ o.glb_path = none := by
  refine ⟨by decide, by decide, ?_⟩
  refine ⟨_, rfl, rfl⟩

/-- C4 (amended) — batch exception behaviour: an exception during one
object's conversion aborts the remaining conversions, but the handler
then clears the 3D-generating flag (resetting the failing object's
model state to Empty) and the batch flag on every object of the store. -/
theorem C4_batch_exception_unlock (results : Nat → CallResult) (now : String)
    (data : List SceneObject)
    (habort : (perform_batch_3d_conversion results now data).2.2 = true) :
    ∀ o ∈ (perform_batch_3d_conversion results now data).1,
      o.three_d_generating = false ∧ o.batch_processing = false := by
  intro o ho
  cases h1 : data.isEmpty
  · by_cases h2 : data.countP (fun o => batchEligible o) = 0
    · simp only [perform_batch_3d_conversion, h1, Bool.false_eq_true, if_false, h2,
        if_true] at habort
    · cases h3 : (batchLoop results now (List.range (batchMarkPass data).length)
        (batchMarkPass data)).2.2
      · simp only [perform_batch_3d_conversion, h1, Bool.false_eq_true, if_false, h2,
          h3] at habort
      · simp only [perform_batch_3d_conversion, h1, Bool.false_eq_true, if_false, h2,
          h3, if_true] at ho
        exact ⟨(mem_batchExceptClear _ o ho).1, (mem_batchExceptClear _ o ho).2.1⟩
  · simp only [perform_batch_3d_conversion, h1, if_true] at habort
    exact Bool.noConfusion habort

/-- C4 witness: in the aborted run of the counterexample input, the
object at index 0 of the final store is unlocked and no longer
generating. -/
theorem C4_batch_exception_unlock_witness :
    ({ title := "a", description := "d", path := some "a.png" } :
      SceneObject).three_d_generating = false ∧
    ({ title := "a", description := "d", path := some "a.png" } :
      SceneObject).batch_processing = false := by
  have h := C4_batch_exception_unlock
    (fun i => if i = 0 then CallResult.raises
              else CallResult.ok ⟨true, "ok", some "b.glb"⟩) "t"
    [{ title := "a", description := "d", path := some "a.png" },
     { title := "b", description := "d", path := some "b.png" }] (by decide)
  exact h _ (by decide)

theorem imageState_generating_iff (o : SceneObject) :
    imageState o = ImageState.Generating ↔ o.image_generating = true := by
  unfold imageState
  cases h1 : o.image_generating <;>
    cases h2 : o.image_generation_failed <;>
    cases h3 : o.prompt_content_filtered <;>
    cases h4 : strTruthy o.path <;>
    simp [h1, h2, h3, h4]

/-- C5 counterexample: an object whose image generation failed
(`image_state = Failed`, hence ≠ Ready), with empty model state and no
batch flag, still gets an enabled "→ 3D" button from the projection,
against the claim's rule 4. -/
theorem C5_status_projection_counterexample :
    imageState { title := "t", description := "d", path := some "p.png",
                 image_generation_failed := true,
                 image_generation_error := some "boom" } = ImageState.Failed "boom" ∧
    modelState { title := "t", description := "d", path := some "p.png",
                 image_generation_failed := true,
                 image_generation_error := some "boom" } = ModelState.Empty ∧
    ({ title := "t", description := "d", path := some "p.png",
       image_generation_failed := true,
       image_generation_error := some "boom" } : SceneObject).batch_processing =
      false ∧
    (shift_card_ui_buttons
      { title := "t", description := "d", path := some "p.png",
        image_generation_failed := true,
        image_generation_error := some "boom" }).to3d_label = "→ 3D" ∧
    (shift_card_ui_buttons
      { title := "t", description := "d", path := some "p.png",
        image_generation_failed := true,
        image_generation_error := some "boom" }).to3d_interactive = true := by
  refine ⟨by decide, by decide, by decide, by decide, by decide⟩

/-- C5 (amended) — status projection: "✓ 3D" iff `model_state = Ready`,
"🚫 3D" iff ContentFiltered, "⏳ 3D" iff Generating or (Empty with the
batch flag), "→ 3D" disabled iff Empty, unbatched and the image is
actively generating, "→ 3D" enabled otherwise — in particular also when
`image_state` is Failed, PromptFiltered or Empty; refresh/edit/delete are
disabled exactly when the image-generating, 3D-generating or batch flag
is set. -/
theorem C5_status_projection (o : SceneObject) :
    ((shift_card_ui_buttons o).refresh_interactive =
      !(o.three_d_generating || o.batch_processing || o.image_generating)) ∧
    ((shift_card_ui_buttons o).edit_interactive =
      (shift_card_ui_buttons o).refresh_interactive) ∧
    ((shift_card_ui_buttons o).delete_interactive =
      (shift_card_ui_buttons o).refresh_interactive) ∧
    (((shift_card_ui_buttons o).to3d_label = "✓ 3D" ∧
      (shift_card_ui_buttons o).to3d_interactive = false) ↔ isModelReady o = true) ∧
    (((shift_card_ui_buttons o).to3d_label = "🚫 3D") ↔
      modelState o = ModelState.ContentFiltered) ∧
    (((shift_card_ui_buttons o).to3d_label = "⏳ 3D") ↔
      (modelState o = ModelState.Generating ∨
       (modelState o = ModelState.Empty ∧ o.batch_processing = true))) ∧
    (((shift_card_ui_buttons o).to3d_label = "→ 3D" ∧
      (shift_card_ui_buttons o).to3d_interactive = false) ↔
      (modelState o = ModelState.Empty ∧ o.batch_processing = false ∧
       imageState o = ImageState.Generating)) ∧
    (((shift_card_ui_buttons o).to3d_interactive = true) ↔
      (modelState o = ModelState.Empty ∧ o.batch_processing = false ∧
       ¬imageState o = ImageState.Generating)) := by
  simp only [imageState_generating_iff]
  cases hg : strTruthy o.glb_path <;>
    cases hc : o.content_filtered <;>
    cases h3 : o.three_d_generating <;>
    cases hb : o.batch_processing <;>
    cases hi : o.image_generating <;>
    simp [shift_card_ui_buttons, modelState, isModelReady, hg, hc, h3, hb, hi]

/-- C6 counterexample: a store whose only object has a failed image
(`image_state = Failed`, so it is not spec-eligible for conversion)
nevertheless gets an enabled convert-all control. -/
theorem C6_convert_all_counterexample :
    enable_convert_all
      [{ title := "t", description := "d", path := some "p.png",
         image_generation_failed := true,
         image_generation_error := some "boom" }] = true ∧
    ([{ title := "t", description := "d", path := some "p.png",
        image_generation_failed := true,
        image_generation_error := some "boom" }] :
      List SceneObject).any specBatchEligible = false := by
  refine ⟨by decide, by decide⟩

theorem batchEligible_eq_modelEmpty :
    (fun o : SceneObject =>
      !strTruthy o.glb_path && !o.three_d_generating && !o.content_filtered) =
    fun o => decide (modelState o = ModelState.Empty) := by
  funext o
  cases hg : strTruthy o.glb_path <;> cases hc : o.content_filtered <;>
    cases h3 : o.three_d_generating <;> simp [modelState, hg, hc, h3]

/-- C6 (amended) — convert-all enablement: the control is enabled iff the
store is non-empty, no object has the batch flag, no image or 3D
generation is running, and at least one object has `model_state = Empty`
— irrespective of that object's image state. -/
theorem C6_convert_all_enablement (data : List SceneObject) :
    enable_convert_all data =
      (!data.isEmpty &&
       !data.any (fun o => o.batch_processing) &&
       !data.any (fun o => o.image_generating) &&
       !data.any (fun o => o.three_d_generating) &&
       data.any fun o => decide (modelState o = ModelState.Empty)) := by
  unfold enable_convert_all
  rw [batchEligible_eq_modelEmpty]
  cases data with
  | nil => rfl
  | cons a l =>
    simp only [List.isEmpty_cons, Bool.not_false, Bool.true_and]
    generalize (a :: l).any (fun o => decide (modelState o = ModelState.Empty)) = p
    generalize (a :: l).any (fun o => o.batch_processing) = q
    generalize (a :: l).any (fun o => o.image_generating) = r
    generalize (a :: l).any (fun o => o.three_d_generating) = s
    revert p q r s
    decide
